import Mathlib

/-!
Shallow embedding of the as-scraper execution engine and sitemap crawler.

Sources embedded here:
- src/as_scraper/base/scraper.py   (class Scraper: __init__, driver, _load_html_selenium,
  _load_html_requests, _execute_selenium, _execute_requests, _parse_urls_and_extras, execute)
- src/base/errors.py               (ScraperError named tuple)
- src/as-scraper/base/exceptions.py (ThresholdException)
- src/as-airflow/base/crawlers/crawler.py (Crawler._load_html)
- src/as-scraper/base/crawlers/tree_crawler.py (TreeCrawler)

Modelling conventions:
- Python float arithmetic on ERROR_THRESHOLD is modelled exactly over ℚ.
- The caller-supplied scrape_handler, the HTTP side effects (requests.get), the
  browser navigation outcome, and the BeautifulSoup XML parses are environment
  functions supplied to the engine; the engine code itself is translated line
  by line from the source.
- Python exceptions are modelled with Except / an explicit exception component.
- A pandas DataFrame is modelled as a column-name list plus a list of rows
  (each row a list of cell values, positionally matching the columns).
-/

namespace AsScraper

/-- One cell value of a dataframe / one extras value. Modelled as `String`. -/
abbrev Value := String

/-- A kwargs record: ordered association list of keyword/value pairs. -/
abbrev Extras := List (String × Value)

/-- One row returned by a scrape handler (column name / value pairs). -/
abbrev Row := List (String × Value)

/-- src/base/errors.py: `ScraperError = namedtuple('ScraperError', 'url message')`. -/
structure ScraperError where
  url : String
  message : String
deriving DecidableEq, Repr

/-- Outcome of one call of the caller-supplied `scrape_handler`: either the
returned one-row dataframe (a list of rows) or a raised exception's message. -/
inductive HandlerResult where
  | rows (rs : List Row)
  | raises (msg : String)
deriving DecidableEq, Repr

/-- The caller-supplied `scrape_handler(url, html, driver, **kwargs)`:
arguments are the url, the html content (requests strategy), the content
currently loaded in the driver (selenium strategy), and the extras kwargs. -/
abbrev Handler := String → Option String → Option String → Extras → HandlerResult

/-- Python exceptions surfaced by the engine:
- `thresholdException pct` models src/as-scraper/base/exceptions.py
  `ThresholdException(threshold)` whose message carries `threshold` as a
  percentage (the engine raises it with `ERROR_THRESHOLD * 100`);
- `typeError` models the `TypeError` raised by `len(None)`;
- `attributeError msg` models `AttributeError(msg)`. -/
inductive ScrapeExc where
  | thresholdException (pct : ℚ)
  | typeError
  | attributeError (msg : String)
deriving DecidableEq, Repr

/-- An HTTP response as seen by the engine: status code plus body content. -/
structure HttpResponse where
  status_code : Nat
  content : String
deriving DecidableEq, Repr

/-- The HTTP world: what a GET of each url returns. -/
abbrev Http := String → HttpResponse

/-- A pandas dataframe: named columns and rows of cell values (row `i`'s
`j`-th entry is the value of column `j`). -/
structure DataFrame where
  columns : List String
  rows : List (List Value)
deriving Repr

/-- The Scraper instance state after `__init__` (class attributes that the
claims touch, plus the constructor arguments). `COLUMNS`, `LOG_PATH` and
`LOAD_TIMEOUT` play no role in any claim and are omitted. -/
structure Scraper where
  urls : Option (List String)
  TEST_MODE : Bool
  ERROR_THRESHOLD : ℚ
  LOAD_JAVASCRIPT : Bool
  RESET_AFTER : Option Nat
deriving Repr

/-- Class-attribute default of `ERROR_THRESHOLD` (0.05). -/
def defaultErrorThreshold : ℚ := 1 / 20

/-- `Scraper.__init__(self, urls, test_mode)` over class-attribute values
`class_test_mode`, `class_error_threshold`, `LOAD_JAVASCRIPT`, `RESET_AFTER`
(subclasses may override the class attributes, so they are parameters):
if `test_mode is not None` then `self.TEST_MODE = test_mode` and
`self.ERROR_THRESHOLD = 0`. -/
def Scraper.init (urls : Option (List String)) (test_mode : Option Bool)
    (load_javascript : Bool) (reset_after : Option Nat)
    (class_test_mode : Bool) (class_error_threshold : ℚ) : Scraper :=
  { urls := urls
    LOAD_JAVASCRIPT := load_javascript
    RESET_AFTER := reset_after
    TEST_MODE :=
      match test_mode with
      | none => class_test_mode
      | some b => b
    ERROR_THRESHOLD :=
      match test_mode with
      | none => class_error_threshold
      | some _ => 0 }

/-- The `driver` property adds the `--headless` argument exactly when
`not self.TEST_MODE` (scraper.py lines 64-67). -/
def Scraper.headless (s : Scraper) : Bool := !s.TEST_MODE

/-- scraper.py line 120: `ok_status_code = 200`. -/
def ok_status_code : Nat := 200

/-- `Scraper._load_html_requests(self, url)`: GET the url; return the content
on status 200, otherwise log and fall through (returning `None`). -/
def Scraper.load_html_requests (http : Http) (url : String) : Option String :=
  let response := http url
  if response.status_code = ok_status_code then some response.content else none

/-- Python `dict` lookup used for `df.url` row access: first value bound to
the key, defaulting to the empty value (rows matching their column list never
hit the default). -/
def lookupD (r : List (String × Value)) (k : String) : Value :=
  match r.lookup k with
  | some v => v
  | none => ""

/-- `list(df.url)`: the value of the `url` column of each row, in row order. -/
def DataFrame.urlColumn (df : DataFrame) : List Value :=
  df.rows.map (fun r => lookupD (df.columns.zip r) "url")

/-- `df.loc[:, df.columns != 'url'].to_dict(orient='records')`: one record
per row, keeping every column other than `url` in column order. -/
def DataFrame.recordsWithoutUrl (df : DataFrame) : List Extras :=
  df.rows.map (fun r => (df.columns.zip r).filter (fun p => p.1 != "url"))

/-- `Scraper._parse_urls_and_extras(self, df)` (scraper.py lines 245-276). -/
def Scraper.parse_urls_and_extras (s : Scraper) (df : Option DataFrame) :
    Except ScrapeExc (List (String × Extras)) :=
  match df with
  | none =>
    match s.urls with
    | none => Except.error (ScrapeExc.attributeError "set urls or df for scraper to execute")
    | some us => Except.ok (us.map (fun u => (u, ([] : Extras))))
  | some df =>
    if "url" ∈ df.columns then
      let urls := df.urlColumn
      let extras := df.recordsWithoutUrl
      if extras.length > 0 then
        Except.ok ((List.range urls.length).map (fun i => (urls.getD i "", extras.getD i [])))
      else
        Except.ok (urls.map (fun u => (u, ([] : Extras))))
    else
      Except.error (ScrapeExc.attributeError "df must have a url column")

/-- Environment of a requests-strategy run: the HTTP world and the
caller-supplied scrape handler. -/
structure ReqEnv where
  http : Http
  handler : Handler

/-- The `for url_and_extras in tqdm(urls_and_extras, ...)` loop of
`Scraper._execute_requests` (scraper.py lines 228-243), carrying the
accumulated result rows `df` and the `errors` list. On a handler exception
the error is appended and then `len(errors) > len(self.urls) *
self.ERROR_THRESHOLD` is evaluated: `len(self.urls)` raises a `TypeError`
when `self.urls` is `None`. A fetch returning `None` appends
`ScraperError(url, 'Html not loaded')` with no threshold check. -/
def Scraper.execute_requests_loop (s : Scraper) (env : ReqEnv)
    (tasks : List (String × Extras)) (df : List Row) (errors : List ScraperError) :
    Except ScrapeExc (List Row × List ScraperError) :=
  match tasks with
  | [] => Except.ok (df, errors)
  | (url, extras) :: rest =>
    match Scraper.load_html_requests env.http url with
    | some html =>
      match env.handler url (some html) none extras with
      | HandlerResult.rows rs =>
        Scraper.execute_requests_loop s env rest (df ++ rs) errors
      | HandlerResult.raises msg =>
        let errors2 := errors ++ [ScraperError.mk url msg]
        match s.urls with
        | none => Except.error ScrapeExc.typeError
        | some us =>
          if ((errors2.length : ℚ) > (us.length : ℚ) * s.ERROR_THRESHOLD) then
            Except.error (ScrapeExc.thresholdException (s.ERROR_THRESHOLD * 100))
          else
            Scraper.execute_requests_loop s env rest df errors2
    | none =>
      Scraper.execute_requests_loop s env rest df (errors ++ [ScraperError.mk url "Html not loaded"])

/-- `Scraper._execute_requests(self, initial_df)` (scraper.py lines 203-243):
parse the task list, then run the loop starting from an empty result table
and an empty error list. -/
def Scraper.execute_requests (s : Scraper) (env : ReqEnv) (initial_df : Option DataFrame) :
    Except ScrapeExc (List Row × List ScraperError) :=
  match s.parse_urls_and_extras initial_df with
  | Except.error e => Except.error e
  | Except.ok tasks => Scraper.execute_requests_loop s env tasks [] []

/-- Browser session lifecycle events, recorded in order: a `create` each time
the `driver` property builds a Firefox instance, a `quit` each time
`driver.quit()` runs. -/
inductive DriverEvent where
  | create
  | quit
deriving DecidableEq, Repr

/-- Environment of a selenium-strategy run: `nav url` is the outcome of
`driver.get(url)` — a flag saying whether the call raised, together with the
content that is loaded in the window after the attempt (the full page on
success, whatever partial content got rendered on a raise) — plus the
caller-supplied scrape handler. -/
structure SelEnv where
  nav : String → Bool × String
  handler : Handler

/-- Mutable state of a selenium run: accumulated result rows, error list,
`self._driver` (`some c` when set, carrying the currently loaded content `c`),
and the driver lifecycle event trace. -/
structure SelState where
  df : List Row
  errors : List ScraperError
  driver : Option String
  events : List DriverEvent
deriving DecidableEq, Repr

/-- The `driver` property (scraper.py lines 48-74): lazily create the Firefox
instance when `self._driver is None`. A fresh instance has no page loaded. -/
def ensure_driver (st : SelState) : SelState :=
  match st.driver with
  | some _ => st
  | none => { st with driver := some "", events := st.events ++ [DriverEvent.create] }

/-- `Scraper._load_html_selenium(self, url)` (scraper.py lines 85-104):
access the driver (creating it if needed), open a fresh empty tab and close
all others, then `driver.get(url)`; an exception from the get is caught and
logged, leaving whatever content the attempt loaded in the window. -/
def Scraper.load_html_selenium (env : SelEnv) (url : String) (st : SelState) : SelState :=
  let st := ensure_driver st
  let st := { st with driver := some "" }
  let c := (env.nav url).2
  { st with driver := some c }

/-- scraper.py lines 195-198: `if self.RESET_AFTER is not None and
(i + 1) % self.RESET_AFTER == 0: self.driver.quit(); self._driver = None`.
(A `RESET_AFTER` of 0 would raise ZeroDivisionError in Python; no claim
touches it and `x % 0 = x ≠ 0` here makes the branch dead.) -/
def Scraper.selenium_reset (s : Scraper) (i : Nat) (st : SelState) : SelState :=
  match s.RESET_AFTER with
  | none => st
  | some n =>
    if (i + 1) % n = 0 then
      { st with driver := none, events := st.events ++ [DriverEvent.quit] }
    else st

/-- The body of the `for i, url_and_extras in tqdm(list(enumerate(...)))`
loop of `Scraper._execute_selenium` (scraper.py lines 181-198) for task `i`
of `total` tasks: load the url, call the handler with the live driver; on a
handler exception append the error and evaluate `len(errors) >
len(urls_and_extras) * self.ERROR_THRESHOLD`; on a breach, quit the driver
unless `self.TEST_MODE`, then raise; otherwise fall through to the periodic
reset check. -/
def Scraper.selenium_step (s : Scraper) (env : SelEnv) (total : Nat) (i : Nat)
    (url : String) (extras : Extras) (st : SelState) : SelState × Option ScrapeExc :=
  let st := Scraper.load_html_selenium env url st
  let content := match st.driver with | some c => c | none => ""
  match env.handler url none (some content) extras with
  | HandlerResult.rows rs =>
    (Scraper.selenium_reset s i { st with df := st.df ++ rs }, none)
  | HandlerResult.raises msg =>
    let st := { st with errors := st.errors ++ [ScraperError.mk url msg] }
    if ((st.errors.length : ℚ) > (total : ℚ) * s.ERROR_THRESHOLD) then
      let st :=
        if s.TEST_MODE then st
        else { st with events := st.events ++ [DriverEvent.quit] }
      (st, some (ScrapeExc.thresholdException (s.ERROR_THRESHOLD * 100)))
    else
      (Scraper.selenium_reset s i st, none)

/-- The task loop of `Scraper._execute_selenium` followed by the final
`self.driver.quit(); self._driver = None` (scraper.py lines 199-200; the
`driver` property re-creates an instance first when `self._driver` is
`None`). The second component is the raised exception, if any. -/
def Scraper.selenium_loop (s : Scraper) (env : SelEnv) (total : Nat) (i : Nat)
    (tasks : List (String × Extras)) (st : SelState) : SelState × Option ScrapeExc :=
  match tasks with
  | [] =>
    let st := ensure_driver st
    ({ st with driver := none, events := st.events ++ [DriverEvent.quit] }, none)
  | (url, extras) :: rest =>
    match Scraper.selenium_step s env total i url extras st with
    | (st, none) => Scraper.selenium_loop s env total (i + 1) rest st
    | (st, some e) => (st, some e)

/-- The initial state of a selenium run: empty result table (`pd.DataFrame
(columns=self.COLUMNS)`), empty error list, no driver, no events. -/
def initialSelState : SelState :=
  { df := [], errors := [], driver := none, events := [] }

/-- `Scraper._execute_selenium(self, initial_df)` (scraper.py lines 155-201):
parse the task list (an `AttributeError` from the parse propagates), then run
the loop with `total = len(urls_and_extras)` from the initial state. -/
def Scraper.execute_selenium (s : Scraper) (env : SelEnv) (initial_df : Option DataFrame) :
    SelState × Option ScrapeExc :=
  match s.parse_urls_and_extras initial_df with
  | Except.error e => (initialSelState, some e)
  | Except.ok tasks => Scraper.selenium_loop s env tasks.length 0 tasks initialSelState

/-- `Scraper.execute(self, df)` (scraper.py line 287): dispatch on
`self.LOAD_JAVASCRIPT`; the observable outcome is the `(df, errors)` pair or
the raised exception. -/
def Scraper.execute (s : Scraper) (renv : ReqEnv) (senv : SelEnv) (df : Option DataFrame) :
    Except ScrapeExc (List Row × List ScraperError) :=
  if s.LOAD_JAVASCRIPT then
    match Scraper.execute_selenium s senv df with
    | (st, none) => Except.ok (st.df, st.errors)
    | (_, some e) => Except.error e
  else
    Scraper.execute_requests s renv df

/-- Reference accumulator: the error list a requests-strategy run records
when no threshold ever trips (pure per-task accumulation, scraper.py lines
228-243 with the abort removed). -/
def requests_errors (env : ReqEnv) : List (String × Extras) → List ScraperError
  | [] => []
  | (url, extras) :: rest =>
    match Scraper.load_html_requests env.http url with
    | some html =>
      match env.handler url (some html) none extras with
      | HandlerResult.rows _ => requests_errors env rest
      | HandlerResult.raises msg => ScraperError.mk url msg :: requests_errors env rest
    | none => ScraperError.mk url "Html not loaded" :: requests_errors env rest

/-- Reference accumulator: the result rows a requests-strategy run collects
when no threshold ever trips. -/
def requests_rows (env : ReqEnv) : List (String × Extras) → List Row
  | [] => []
  | (url, extras) :: rest =>
    match Scraper.load_html_requests env.http url with
    | some html =>
      match env.handler url (some html) none extras with
      | HandlerResult.rows rs => rs ++ requests_rows env rest
      | HandlerResult.raises _ => requests_rows env rest
    | none => requests_rows env rest

/-- Reference accumulator: the error list a selenium-strategy run records
when no threshold ever trips. After `_load_html_selenium` the driver always
holds `(env.nav url).2`, so the handler's input for a task is independent of
earlier state. -/
def selenium_errors (env : SelEnv) : List (String × Extras) → List ScraperError
  | [] => []
  | (url, extras) :: rest =>
    match env.handler url none (some (env.nav url).2) extras with
    | HandlerResult.rows _ => selenium_errors env rest
    | HandlerResult.raises msg => ScraperError.mk url msg :: selenium_errors env rest

/-- Reference accumulator: the result rows a selenium-strategy run collects
when no threshold ever trips. -/
def selenium_rows (env : SelEnv) : List (String × Extras) → List Row
  | [] => []
  | (url, extras) :: rest =>
    match env.handler url none (some (env.nav url).2) extras with
    | HandlerResult.rows rs => rs ++ selenium_rows env rest
    | HandlerResult.raises _ => selenium_rows env rest

/-- Exceptions of the crawler component: `attributeError` for a missing
`sitemap_parent`, `httpError status` for `response.raise_for_status()` on a
non-200 response (crawler.py lines 37-42). -/
inductive CrawlExc where
  | attributeError (msg : String)
  | httpError (status : Nat)
deriving DecidableEq, Repr

/-- Environment of a crawl: the HTTP world plus the two BeautifulSoup
extractions — `parseLocs content` is the text of every `loc` element
(`soup.find_all('loc')`), `parseUrlLocs content` the text of every
`url > loc` element (`soup.select('url > loc')`), both in document order. -/
structure CrawlEnv where
  http : Http
  parseLocs : String → List String
  parseUrlLocs : String → List String

/-- `Crawler._load_html(self, url)` (src/as-airflow/base/crawlers/crawler.py):
return the content on status 200, otherwise `response.raise_for_status()`. -/
def Crawler.load_html (http : Http) (url : String) : Except CrawlExc String :=
  let response := http url
  if response.status_code = ok_status_code then Except.ok response.content
  else Except.error (CrawlExc.httpError response.status_code)

/-- A `TreeCrawler` instance: the class attribute `sitemap_parent` (possibly
overridden by a subclass) and the `should_crawl` predicate (the base class
body returns `True`; subclasses may override it). -/
structure TreeCrawler where
  sitemap_parent : Option String
  should_crawl : String → Bool

/-- The base-class `TreeCrawler.should_crawl` body (tree_crawler.py lines
51-65): accept every sitemap url. -/
def TreeCrawler.default_should_crawl : String → Bool := fun _ => true

/-- `TreeCrawler._get_sitemaps_from_parent(self)` (tree_crawler.py lines
36-49): `if not self.sitemap_parent: raise AttributeError(...)` (`None` and
the empty string are both falsy), then load the root document and return the
text of all its `loc` elements. -/
def TreeCrawler.get_sitemaps_from_parent (c : TreeCrawler) (env : CrawlEnv) :
    Except CrawlExc (List String) :=
  match c.sitemap_parent with
  | none => Except.error (CrawlExc.attributeError "sitemap_index must be set")
  | some parent =>
    if parent = "" then Except.error (CrawlExc.attributeError "sitemap_index must be set")
    else
      match Crawler.load_html env.http parent with
      | Except.error e => Except.error e
      | Except.ok content => Except.ok (env.parseLocs content)

/-- The `for sitemap in filtered_sitemaps` loop of `TreeCrawler.crawl`
(tree_crawler.py lines 30-33): load each child sitemap in order (a fetch
failure propagates) and append the text of its `url > loc` elements. -/
def TreeCrawler.crawl_children (env : CrawlEnv) : List String → Except CrawlExc (List String)
  | [] => Except.ok []
  | sm :: rest =>
    match Crawler.load_html env.http sm with
    | Except.error e => Except.error e
    | Except.ok content =>
      match TreeCrawler.crawl_children env rest with
      | Except.error e => Except.error e
      | Except.ok urls => Except.ok (env.parseUrlLocs content ++ urls)

/-- `TreeCrawler.crawl(self)` (tree_crawler.py lines 18-34): fetch the child
sitemap list from the root, filter it with `should_crawl`, and concatenate
the leaf urls of every accepted child in order. -/
def TreeCrawler.crawl (c : TreeCrawler) (env : CrawlEnv) : Except CrawlExc (List String) :=
  match c.get_sitemaps_from_parent env with
  | Except.error e => Except.error e
  | Except.ok sitemaps =>
    TreeCrawler.crawl_children env (sitemaps.filter c.should_crawl)


/-- Concrete fixture: one url, constructor defaults (threshold 0.05). -/
def oneUrlScraper : Scraper :=
  Scraper.init (some ["u"]) none false none false defaultErrorThreshold

/-- Concrete fixture: every GET returns status 404. -/
def fetchFailEnv : ReqEnv :=
  { http := fun _ => { status_code := 404, content := "" }
    handler := fun _ _ _ _ => HandlerResult.rows [] }

/-- Concrete fixture: one constructor url, class threshold one half. -/
def oneUrlHalfScraper : Scraper :=
  Scraper.init (some ["a"]) none false none false (1 / 2)

/-- Concrete fixture: a five-row dataframe with only a url column. -/
def fiveUrlDf : DataFrame :=
  { columns := ["url"], rows := [["u1"], ["u2"], ["u3"], ["u4"], ["u5"]] }

/-- Concrete fixture: every GET succeeds, the handler always raises. -/
def raisingReqEnv : ReqEnv :=
  { http := fun _ => { status_code := 200, content := "h" }
    handler := fun _ _ _ _ => HandlerResult.raises "e" }

/-- Concrete fixture: every GET succeeds, the handler returns one row. -/
def okRowsEnv : ReqEnv :=
  { http := fun _ => { status_code := 200, content := "h" }
    handler := fun u _ _ _ => HandlerResult.rows [[("url", u)]] }

/-- Concrete fixture: selenium scraper, one url, defaults. -/
def seleniumScraper : Scraper :=
  Scraper.init (some ["u"]) none true none false defaultErrorThreshold

/-- Concrete fixture: navigation always raises, leaving partial content; the
handler extracts one row from whatever is loaded. -/
def navFailEnv : SelEnv :=
  { nav := fun _ => (true, "partial")
    handler := fun u _ _ _ => HandlerResult.rows [[("url", u)]] }

/-- Concrete fixture: scraper constructed with test_mode=True, selenium. -/
def testModeScraper : Scraper :=
  Scraper.init (some ["u"]) (some true) true none false defaultErrorThreshold

/-- Concrete fixture: scraper constructed with test_mode=False. -/
def falseTestModeScraper : Scraper :=
  Scraper.init (some ["u"]) (some false) false none false defaultErrorThreshold

/-- Concrete fixture: navigation succeeds, the handler always raises. -/
def raisingSelEnv : SelEnv :=
  { nav := fun _ => (false, "c")
    handler := fun _ _ _ _ => HandlerResult.raises "boom" }

/-- Concrete fixture: scraper with no constructor urls. -/
def noUrlsScraper : Scraper :=
  Scraper.init none none false none false defaultErrorThreshold

/-- Concrete fixture: a one-row dataframe with only a url column. -/
def oneUrlDf : DataFrame :=
  { columns := ["url"], rows := [["u1"]] }

/-- Concrete fixture: the testable-properties example dataframe
`{url: [u1, u2], region: [US, EU]}`. -/
def regionDf : DataFrame :=
  { columns := ["url", "region"], rows := [["u1", "US"], ["u2", "EU"]] }

/-- Concrete fixture: a two-level sitemap world — the root lists children A
and B, A holds leaves x and y, B holds leaf z. -/
def sitemapEnv : CrawlEnv :=
  { http := fun u =>
      if u = "root" then { status_code := 200, content := "ROOT" }
      else if u = "A" then { status_code := 200, content := "CA" }
      else { status_code := 200, content := "CB" }
    parseLocs := fun c => if c = "ROOT" then ["A", "B"] else []
    parseUrlLocs := fun c =>
      if c = "CA" then ["x", "y"] else if c = "CB" then ["z"] else [] }

/-- Concrete fixture: a TreeCrawler rooted at `root` whose filter rejects B. -/
def rejectBCrawler : TreeCrawler :=
  { sitemap_parent := some "root", should_crawl := fun sm => sm != "B" }

/-- Concrete fixture: a mid-run selenium state with a live driver. -/
def midRunState : SelState :=
  { df := [], errors := [], driver := some "d", events := [DriverEvent.create] }

/-- Concrete fixture: the final state of the one-task navFailEnv run. -/
def completedRunState : SelState :=
  { df := [[("url", "u")]], errors := [], driver := none,
    events := [DriverEvent.create, DriverEvent.quit] }

lemma qlen_append_one (errors : List ScraperError) (e : ScraperError) :
    (((errors ++ [e]).length : ℚ)) = (errors.length : ℚ) + 1 := by
  simp

lemma req_loop_fetchfail (s : Scraper) (env : ReqEnv) (url : String) (extras : Extras)
    (rest : List (String × Extras)) (df : List Row) (errors : List ScraperError)
    (h : (env.http url).status_code ≠ ok_status_code) :
    Scraper.execute_requests_loop s env ((url, extras) :: rest) df errors
      = Scraper.execute_requests_loop s env rest df
          (errors ++ [ScraperError.mk url "Html not loaded"]) := by
  simp [Scraper.execute_requests_loop, Scraper.load_html_requests, h]

lemma req_loop_abort (s : Scraper) (env : ReqEnv) (url : String) (extras : Extras)
    (rest : List (String × Extras)) (df : List Row) (errors : List ScraperError)
    (us : List String) (msg : String)
    (hok : (env.http url).status_code = ok_status_code)
    (hh : env.handler url (some (env.http url).content) none extras = HandlerResult.raises msg)
    (hus : s.urls = some us)
    (hbreach : ((errors.length : ℚ) + 1 > (us.length : ℚ) * s.ERROR_THRESHOLD)) :
    Scraper.execute_requests_loop s env ((url, extras) :: rest) df errors
      = Except.error (ScrapeExc.thresholdException (s.ERROR_THRESHOLD * 100)) := by
  have hcond : (((errors ++ [ScraperError.mk url msg]).length : ℚ)
      > (us.length : ℚ) * s.ERROR_THRESHOLD) := by
    rw [qlen_append_one]
    exact hbreach
  simp [Scraper.execute_requests_loop, Scraper.load_html_requests, hok, hh, hus, hcond]
  intro h
  exact absurd hbreach (not_lt.mpr h)

lemma req_loop_noabort (s : Scraper) (env : ReqEnv) (url : String) (extras : Extras)
    (rest : List (String × Extras)) (df : List Row) (errors : List ScraperError)
    (us : List String) (msg : String)
    (hok : (env.http url).status_code = ok_status_code)
    (hh : env.handler url (some (env.http url).content) none extras = HandlerResult.raises msg)
    (hus : s.urls = some us)
    (hno : ¬ ((errors.length : ℚ) + 1 > (us.length : ℚ) * s.ERROR_THRESHOLD)) :
    Scraper.execute_requests_loop s env ((url, extras) :: rest) df errors
      = Scraper.execute_requests_loop s env rest df (errors ++ [ScraperError.mk url msg]) := by
  have hcond : ¬ (((errors ++ [ScraperError.mk url msg]).length : ℚ)
      > (us.length : ℚ) * s.ERROR_THRESHOLD) := by
    rw [qlen_append_one]
    exact hno
  simp [Scraper.execute_requests_loop, Scraper.load_html_requests, hok, hh, hus, hcond]
  intro h
  exact absurd h hno

lemma req_loop_rows (s : Scraper) (env : ReqEnv) (url : String) (extras : Extras)
    (rest : List (String × Extras)) (df : List Row) (errors : List ScraperError)
    (rs : List Row)
    (hok : (env.http url).status_code = ok_status_code)
    (hh : env.handler url (some (env.http url).content) none extras = HandlerResult.rows rs) :
    Scraper.execute_requests_loop s env ((url, extras) :: rest) df errors
      = Scraper.execute_requests_loop s env rest (df ++ rs) errors := by
  simp [Scraper.execute_requests_loop, Scraper.load_html_requests, hok, hh]

lemma req_loop_typeerror (s : Scraper) (env : ReqEnv) (url : String) (extras : Extras)
    (rest : List (String × Extras)) (df : List Row) (errors : List ScraperError) (msg : String)
    (hok : (env.http url).status_code = ok_status_code)
    (hh : env.handler url (some (env.http url).content) none extras = HandlerResult.raises msg)
    (hus : s.urls = none) :
    Scraper.execute_requests_loop s env ((url, extras) :: rest) df errors
      = Except.error ScrapeExc.typeError := by
  simp [Scraper.execute_requests_loop, Scraper.load_html_requests, hok, hh, hus]

lemma req_errors_cons_rows (env : ReqEnv) (url : String) (extras : Extras)
    (rest : List (String × Extras)) (rs : List Row)
    (hok : (env.http url).status_code = ok_status_code)
    (hh : env.handler url (some (env.http url).content) none extras = HandlerResult.rows rs) :
    requests_errors env ((url, extras) :: rest) = requests_errors env rest := by
  simp [requests_errors, Scraper.load_html_requests, hok, hh]

lemma req_errors_cons_raises (env : ReqEnv) (url : String) (extras : Extras)
    (rest : List (String × Extras)) (msg : String)
    (hok : (env.http url).status_code = ok_status_code)
    (hh : env.handler url (some (env.http url).content) none extras = HandlerResult.raises msg) :
    requests_errors env ((url, extras) :: rest)
      = ScraperError.mk url msg :: requests_errors env rest := by
  simp [requests_errors, Scraper.load_html_requests, hok, hh]

lemma req_errors_cons_fail (env : ReqEnv) (url : String) (extras : Extras)
    (rest : List (String × Extras))
    (hok : (env.http url).status_code ≠ ok_status_code) :
    requests_errors env ((url, extras) :: rest)
      = ScraperError.mk url "Html not loaded" :: requests_errors env rest := by
  simp [requests_errors, Scraper.load_html_requests, hok]

lemma req_loop_complete (s : Scraper) (env : ReqEnv) (us : List String)
    (hus : s.urls = some us) :
    ∀ (tasks : List (String × Extras)) (df : List Row) (errors : List ScraperError),
      ((errors.length : ℚ) + ((requests_errors env tasks).length : ℚ)
          ≤ (us.length : ℚ) * s.ERROR_THRESHOLD) →
      Scraper.execute_requests_loop s env tasks df errors
        = Except.ok (df ++ requests_rows env tasks, errors ++ requests_errors env tasks) := by
  intro tasks
  induction tasks with
  | nil =>
    intro df errors _
    simp [Scraper.execute_requests_loop, requests_rows, requests_errors]
  | cons t rest ih =>
    intro df errors hb
    obtain ⟨url, extras⟩ := t
    by_cases hok : (env.http url).status_code = ok_status_code
    · cases hh : env.handler url (some (env.http url).content) none extras with
      | rows rs =>
        rw [req_loop_rows s env url extras rest df errors rs hok hh]
        rw [req_errors_cons_rows env url extras rest rs hok hh] at hb ⊢
        rw [ih (df ++ rs) errors hb]
        have hrows : requests_rows env ((url, extras) :: rest) = rs ++ requests_rows env rest := by
          simp [requests_rows, Scraper.load_html_requests, hok, hh]
        rw [hrows, List.append_assoc]
      | raises msg =>
        rw [req_errors_cons_raises env url extras rest msg hok hh] at hb ⊢
        have hb1 : ((errors.length : ℚ) + 1 + ((requests_errors env rest).length : ℚ)
            ≤ (us.length : ℚ) * s.ERROR_THRESHOLD) := by
          simp only [List.length_cons] at hb
          push_cast at hb
          linarith
        have hno : ¬ ((errors.length : ℚ) + 1 > (us.length : ℚ) * s.ERROR_THRESHOLD) := by
          have hnn : (0 : ℚ) ≤ ((requests_errors env rest).length : ℚ) := by positivity
          linarith
        rw [req_loop_noabort s env url extras rest df errors us msg hok hh hus hno]
        have hb2 : (((errors ++ [ScraperError.mk url msg]).length : ℚ)
            + ((requests_errors env rest).length : ℚ)
            ≤ (us.length : ℚ) * s.ERROR_THRESHOLD) := by
          rw [qlen_append_one]
          exact hb1
        rw [ih df (errors ++ [ScraperError.mk url msg]) hb2]
        have hrows : requests_rows env ((url, extras) :: rest) = requests_rows env rest := by
          simp [requests_rows, Scraper.load_html_requests, hok, hh]
        rw [hrows, List.append_assoc]
        simp
    · rw [req_errors_cons_fail env url extras rest hok] at hb ⊢
      have hb1 : (((errors ++ [ScraperError.mk url "Html not loaded"]).length : ℚ)
          + ((requests_errors env rest).length : ℚ)
          ≤ (us.length : ℚ) * s.ERROR_THRESHOLD) := by
        rw [qlen_append_one]
        simp only [List.length_cons] at hb
        push_cast at hb ⊢
        linarith
      rw [req_loop_fetchfail s env url extras rest df errors hok]
      rw [ih df (errors ++ [ScraperError.mk url "Html not loaded"]) hb1]
      have hrows : requests_rows env ((url, extras) :: rest) = requests_rows env rest := by
        simp [requests_rows, Scraper.load_html_requests, hok]
      rw [hrows, List.append_assoc]
      simp


lemma ensure_driver_some (st : SelState) (d : String) (h : st.driver = some d) :
    ensure_driver st = st := by
  simp [ensure_driver, h]

lemma ensure_driver_fields (st : SelState) :
    (ensure_driver st).df = st.df ∧ (ensure_driver st).errors = st.errors := by
  cases h : st.driver with
  | none => simp [ensure_driver, h]
  | some d => simp [ensure_driver, h]

lemma load_html_selenium_eq (env : SelEnv) (url : String) (st : SelState) :
    Scraper.load_html_selenium env url st
      = { ensure_driver st with driver := some (env.nav url).2 } := by
  rfl

lemma load_html_selenium_driver (env : SelEnv) (url : String) (st : SelState) :
    (Scraper.load_html_selenium env url st).driver = some (env.nav url).2 := by
  rfl

lemma load_html_selenium_fields (env : SelEnv) (url : String) (st : SelState) :
    (Scraper.load_html_selenium env url st).df = st.df
      ∧ (Scraper.load_html_selenium env url st).errors = st.errors := by
  rw [load_html_selenium_eq]
  exact ensure_driver_fields st

lemma sel_reset_fields (s : Scraper) (i : Nat) (st : SelState) :
    (Scraper.selenium_reset s i st).df = st.df
      ∧ (Scraper.selenium_reset s i st).errors = st.errors := by
  cases h : s.RESET_AFTER with
  | none => simp [Scraper.selenium_reset, h]
  | some n =>
    by_cases hi : (i + 1) % n = 0
    · simp [Scraper.selenium_reset, h, hi]
    · simp [Scraper.selenium_reset, h, hi]

lemma sel_step_rows (s : Scraper) (env : SelEnv) (total : Nat) (i : Nat)
    (url : String) (extras : Extras) (st : SelState) (rs : List Row)
    (hh : env.handler url none (some (env.nav url).2) extras = HandlerResult.rows rs) :
    Scraper.selenium_step s env total i url extras st
      = (Scraper.selenium_reset s i
          { Scraper.load_html_selenium env url st with
              df := (Scraper.load_html_selenium env url st).df ++ rs }, none) := by
  simp [Scraper.selenium_step, load_html_selenium_driver, hh]

lemma sel_step_abort (s : Scraper) (env : SelEnv) (total : Nat) (i : Nat)
    (url : String) (extras : Extras) (st : SelState) (msg : String)
    (hh : env.handler url none (some (env.nav url).2) extras = HandlerResult.raises msg)
    (hbreach : ((total : ℚ) * s.ERROR_THRESHOLD < (st.errors.length : ℚ) + 1)) :
    Scraper.selenium_step s env total i url extras st
      = (let st2 := { Scraper.load_html_selenium env url st with
            errors := st.errors ++ [ScraperError.mk url msg] }
         ((if s.TEST_MODE then st2
           else { st2 with events := st2.events ++ [DriverEvent.quit] }),
          some (ScrapeExc.thresholdException (s.ERROR_THRESHOLD * 100)))) := by
  have hE : (Scraper.load_html_selenium env url st).errors = st.errors :=
    (load_html_selenium_fields env url st).2
  simp [Scraper.selenium_step, load_html_selenium_driver, hh, hE, hbreach]

lemma sel_step_noabort (s : Scraper) (env : SelEnv) (total : Nat) (i : Nat)
    (url : String) (extras : Extras) (st : SelState) (msg : String)
    (hh : env.handler url none (some (env.nav url).2) extras = HandlerResult.raises msg)
    (hno : ¬ ((total : ℚ) * s.ERROR_THRESHOLD < (st.errors.length : ℚ) + 1)) :
    Scraper.selenium_step s env total i url extras st
      = (Scraper.selenium_reset s i
          { Scraper.load_html_selenium env url st with
              errors := st.errors ++ [ScraperError.mk url msg] }, none) := by
  have hE : (Scraper.load_html_selenium env url st).errors = st.errors :=
    (load_html_selenium_fields env url st).2
  simp [Scraper.selenium_step, load_html_selenium_driver, hh, hE, hno]


lemma sel_loop_cons (s : Scraper) (env : SelEnv) (total : Nat) (i : Nat)
    (url : String) (extras : Extras) (rest : List (String × Extras)) (st : SelState) :
    Scraper.selenium_loop s env total i ((url, extras) :: rest) st
      = (match Scraper.selenium_step s env total i url extras st with
         | (st2, none) => Scraper.selenium_loop s env total (i + 1) rest st2
         | (st2, some e) => (st2, some e)) := by
  rfl

lemma sel_loop_abort (s : Scraper) (env : SelEnv) (total : Nat) (i : Nat)
    (url : String) (extras : Extras) (rest : List (String × Extras)) (st : SelState)
    (msg : String)
    (hh : env.handler url none (some (env.nav url).2) extras = HandlerResult.raises msg)
    (hbreach : ((total : ℚ) * s.ERROR_THRESHOLD < (st.errors.length : ℚ) + 1)) :
    Scraper.selenium_loop s env total i ((url, extras) :: rest) st
      = (let st2 := { Scraper.load_html_selenium env url st with
            errors := st.errors ++ [ScraperError.mk url msg] }
         ((if s.TEST_MODE then st2
           else { st2 with events := st2.events ++ [DriverEvent.quit] }),
          some (ScrapeExc.thresholdException (s.ERROR_THRESHOLD * 100)))) := by
  rw [sel_loop_cons, sel_step_abort s env total i url extras st msg hh hbreach]

lemma sel_errors_cons_rows (env : SelEnv) (url : String) (extras : Extras)
    (rest : List (String × Extras)) (rs : List Row)
    (hh : env.handler url none (some (env.nav url).2) extras = HandlerResult.rows rs) :
    selenium_errors env ((url, extras) :: rest) = selenium_errors env rest := by
  simp [selenium_errors, hh]

lemma sel_errors_cons_raises (env : SelEnv) (url : String) (extras : Extras)
    (rest : List (String × Extras)) (msg : String)
    (hh : env.handler url none (some (env.nav url).2) extras = HandlerResult.raises msg) :
    selenium_errors env ((url, extras) :: rest)
      = ScraperError.mk url msg :: selenium_errors env rest := by
  simp [selenium_errors, hh]

lemma sel_loop_complete (s : Scraper) (env : SelEnv) (total : Nat) :
    ∀ (tasks : List (String × Extras)) (i : Nat) (st : SelState),
      ((st.errors.length : ℚ) + ((selenium_errors env tasks).length : ℚ)
          ≤ (total : ℚ) * s.ERROR_THRESHOLD) →
      (Scraper.selenium_loop s env total i tasks st).2 = none
        ∧ (Scraper.selenium_loop s env total i tasks st).1.errors
            = st.errors ++ selenium_errors env tasks
        ∧ (Scraper.selenium_loop s env total i tasks st).1.df
            = st.df ++ selenium_rows env tasks := by
  intro tasks
  induction tasks with
  | nil =>
    intro i st _
    have hf := ensure_driver_fields st
    simp [Scraper.selenium_loop, selenium_errors, selenium_rows, hf.1, hf.2]
  | cons t rest ih =>
    intro i st hb
    obtain ⟨url, extras⟩ := t
    cases hh : env.handler url none (some (env.nav url).2) extras with
    | rows rs =>
      rw [sel_errors_cons_rows env url extras rest rs hh] at hb
      rw [sel_loop_cons, sel_step_rows s env total i url extras st rs hh]
      have hload := load_html_selenium_fields env url st
      set st2 := Scraper.selenium_reset s i
          { Scraper.load_html_selenium env url st with
              df := (Scraper.load_html_selenium env url st).df ++ rs } with hst2
      have hreset := sel_reset_fields s i
          { Scraper.load_html_selenium env url st with
              df := (Scraper.load_html_selenium env url st).df ++ rs }
      have hE2 : st2.errors = st.errors := by
        rw [hst2, hreset.2]
        exact hload.2
      have hD2 : st2.df = st.df ++ rs := by
        rw [hst2, hreset.1]
        simp [hload.1]
      have := ih (i + 1) st2 (by rw [hE2]; exact hb)
      refine ⟨this.1, ?_, ?_⟩
      · rw [this.2.1, hE2]
        simp [selenium_errors, hh]
      · rw [this.2.2, hD2]
        simp [selenium_rows, hh, List.append_assoc]
    | raises msg =>
      rw [sel_errors_cons_raises env url extras rest msg hh] at hb
      have hb1 : ((st.errors.length : ℚ) + 1 + ((selenium_errors env rest).length : ℚ)
          ≤ (total : ℚ) * s.ERROR_THRESHOLD) := by
        simp only [List.length_cons] at hb
        push_cast at hb
        linarith
      have hno : ¬ ((total : ℚ) * s.ERROR_THRESHOLD < (st.errors.length : ℚ) + 1) := by
        have hnn : (0 : ℚ) ≤ ((selenium_errors env rest).length : ℚ) := by positivity
        linarith
      rw [sel_loop_cons, sel_step_noabort s env total i url extras st msg hh hno]
      have hload := load_html_selenium_fields env url st
      set st2 := Scraper.selenium_reset s i
          { Scraper.load_html_selenium env url st with
              errors := st.errors ++ [ScraperError.mk url msg] } with hst2
      have hreset := sel_reset_fields s i
          { Scraper.load_html_selenium env url st with
              errors := st.errors ++ [ScraperError.mk url msg] }
      have hE2 : st2.errors = st.errors ++ [ScraperError.mk url msg] := by
        rw [hst2, hreset.2]
      have hD2 : st2.df = st.df := by
        rw [hst2, hreset.1]
        exact hload.1
      have hb2 : ((st2.errors.length : ℚ) + ((selenium_errors env rest).length : ℚ)
          ≤ (total : ℚ) * s.ERROR_THRESHOLD) := by
        rw [hE2]
        simp only [List.length_append, List.length_cons, List.length_nil]
        push_cast
        linarith
      have := ih (i + 1) st2 hb2
      refine ⟨this.1, ?_, ?_⟩
      · rw [this.2.1, hE2]
        simp [selenium_errors, hh]
      · rw [this.2.2, hD2]
        simp [selenium_rows, hh]


lemma sel_loop_end_quit (s : Scraper) (env : SelEnv) (total : Nat) :
    ∀ (tasks : List (String × Extras)) (i : Nat) (st : SelState) (res : SelState),
      Scraper.selenium_loop s env total i tasks st = (res, none) →
      res.driver = none ∧ ∃ evs, res.events = evs ++ [DriverEvent.quit] := by
  intro tasks
  induction tasks with
  | nil =>
    intro i st res h
    simp [Scraper.selenium_loop] at h
    refine ⟨?_, (ensure_driver st).events, ?_⟩
    · rw [← h]
    · rw [← h]
  | cons t rest ih =>
    intro i st res h
    obtain ⟨url, extras⟩ := t
    rw [sel_loop_cons] at h
    cases hstep : Scraper.selenium_step s env total i url extras st with
    | mk st2 exc =>
      cases exc with
      | none =>
        rw [hstep] at h
        exact ih (i + 1) st2 res h
      | some e =>
        rw [hstep] at h
        simp at h

lemma sel_step_some_shape (s : Scraper) (env : SelEnv) (total : Nat) (i : Nat)
    (url : String) (extras : Extras) (st : SelState) (st2 : SelState) (e : ScrapeExc)
    (h : Scraper.selenium_step s env total i url extras st = (st2, some e)) :
    e = ScrapeExc.thresholdException (s.ERROR_THRESHOLD * 100)
      ∧ (s.TEST_MODE = false → ∃ evs, st2.events = evs ++ [DriverEvent.quit]) := by
  cases hh : env.handler url none (some (env.nav url).2) extras with
  | rows rs =>
    rw [sel_step_rows s env total i url extras st rs hh] at h
    simp at h
  | raises msg =>
    by_cases hc : ((total : ℚ) * s.ERROR_THRESHOLD < (st.errors.length : ℚ) + 1)
    · rw [sel_step_abort s env total i url extras st msg hh hc] at h
      simp only [Prod.mk.injEq, Option.some.injEq] at h
      refine ⟨h.2.symm, fun htm => ?_⟩
      rw [← h.1, htm]
      simp
    · rw [sel_step_noabort s env total i url extras st msg hh hc] at h
      simp at h

lemma sel_loop_abort_quit (s : Scraper) (env : SelEnv) (total : Nat)
    (htm : s.TEST_MODE = false) :
    ∀ (tasks : List (String × Extras)) (i : Nat) (st : SelState) (res : SelState)
      (e : ScrapeExc),
      Scraper.selenium_loop s env total i tasks st = (res, some e) →
      e = ScrapeExc.thresholdException (s.ERROR_THRESHOLD * 100)
        ∧ ∃ evs, res.events = evs ++ [DriverEvent.quit] := by
  intro tasks
  induction tasks with
  | nil =>
    intro i st res e h
    simp [Scraper.selenium_loop] at h
  | cons t rest ih =>
    intro i st res e h
    obtain ⟨url, extras⟩ := t
    rw [sel_loop_cons] at h
    cases hstep : Scraper.selenium_step s env total i url extras st with
    | mk st2 exc =>
      cases exc with
      | none =>
        rw [hstep] at h
        exact ih (i + 1) st2 res e h
      | some e2 =>
        rw [hstep] at h
        simp at h
        obtain ⟨h1, h2⟩ := h
        have := sel_step_some_shape s env total i url extras st st2 e2 hstep
        exact ⟨h2 ▸ this.1, h1 ▸ this.2 htm⟩

lemma sel_step_reset_fires (s : Scraper) (env : SelEnv) (total : Nat) (i : Nat)
    (url : String) (extras : Extras) (st : SelState) (rs : List Row) (n : Nat) (d : String)
    (hd : st.driver = some d)
    (hh : env.handler url none (some (env.nav url).2) extras = HandlerResult.rows rs)
    (hra : s.RESET_AFTER = some n)
    (hi : (i + 1) % n = 0) :
    Scraper.selenium_step s env total i url extras st
      = ({ df := st.df ++ rs, errors := st.errors, driver := none,
           events := st.events ++ [DriverEvent.quit] }, none) := by
  rw [sel_step_rows s env total i url extras st rs hh]
  rw [load_html_selenium_eq, ensure_driver_some st d hd]
  simp [Scraper.selenium_reset, hra, hi]


lemma crawl_children_ok (env : CrawlEnv) :
    ∀ (l : List String),
      (∀ sm ∈ l, (env.http sm).status_code = ok_status_code) →
      TreeCrawler.crawl_children env l
        = Except.ok (l.flatMap (fun sm => env.parseUrlLocs (env.http sm).content)) := by
  intro l
  induction l with
  | nil =>
    intro _
    simp [TreeCrawler.crawl_children]
  | cons sm rest ih =>
    intro h
    have hsm : (env.http sm).status_code = ok_status_code := h sm (by simp)
    have hrest := ih (fun x hx => h x (by simp [hx]))
    simp [TreeCrawler.crawl_children, Crawler.load_html, hsm, hrest]

lemma crawl_ok (c : TreeCrawler) (env : CrawlEnv) (parent : String)
    (hparent : c.sitemap_parent = some parent)
    (hne : parent ≠ "")
    (hroot : (env.http parent).status_code = ok_status_code)
    (hchildren : ∀ sm ∈ (env.parseLocs (env.http parent).content).filter c.should_crawl,
        (env.http sm).status_code = ok_status_code) :
    TreeCrawler.crawl c env
      = Except.ok (((env.parseLocs (env.http parent).content).filter c.should_crawl).flatMap
          (fun sm => env.parseUrlLocs (env.http sm).content)) := by
  have hroot2 : TreeCrawler.get_sitemaps_from_parent c env
      = Except.ok (env.parseLocs (env.http parent).content) := by
    simp [TreeCrawler.get_sitemaps_from_parent, hparent, hne, Crawler.load_html, hroot]
  simp [TreeCrawler.crawl, hroot2,
    crawl_children_ok env ((env.parseLocs (env.http parent).content).filter c.should_crawl)
      hchildren]

lemma range_map_getD {α β γ : Type} (l : List α) (f : α → β) (g : α → γ) (b : β) (c : γ) :
    (List.range l.length).map (fun i => ((l.map f).getD i b, (l.map g).getD i c))
      = l.map (fun r => (f r, g r)) := by
  induction l with
  | nil => simp
  | cons a l ih =>
    simp only [List.length_cons, List.range_succ_eq_map, List.map_cons, List.map_map]
    refine congrArg₂ List.cons (by simp) ?_
    rw [← ih]
    refine List.map_congr_left ?_
    intro i _
    simp [Function.comp]

lemma parse_df_eq (s : Scraper) (df : DataFrame) (hcol : "url" ∈ df.columns) :
    Scraper.parse_urls_and_extras s (some df)
      = Except.ok (df.rows.map (fun r =>
          (lookupD (df.columns.zip r) "url",
           (df.columns.zip r).filter (fun p => p.1 != "url")))) := by
  cases hrows : df.rows with
  | nil =>
    simp [Scraper.parse_urls_and_extras, hcol, DataFrame.urlColumn,
      DataFrame.recordsWithoutUrl, hrows]
  | cons r0 rs =>
    have hlen : (DataFrame.recordsWithoutUrl df).length > 0 := by
      simp [DataFrame.recordsWithoutUrl, hrows]
    simp only [Scraper.parse_urls_and_extras, hcol, if_pos, hlen, if_true]
    have hurl : DataFrame.urlColumn df
        = df.rows.map (fun r => lookupD (df.columns.zip r) "url") := rfl
    have hrec : DataFrame.recordsWithoutUrl df
        = df.rows.map (fun r => (df.columns.zip r).filter (fun p => p.1 != "url")) := rfl
    rw [hurl, hrec]
    rw [List.length_map]
    rw [range_map_getD df.rows
      (fun r => lookupD (df.columns.zip r) "url")
      (fun r => (df.columns.zip r).filter (fun p => p.1 != "url")) "" []]
    rw [hrows]


/-- C3: under the HTTP strategy, a GET returning a non-success status makes
`_load_html_requests` return `none` without raising; the engine then appends
exactly one `ScraperError (url, 'Html not loaded')`, appends no result row
for that task, never invokes the extraction handler (the equation holds for
every handler), and continues with the remaining tasks. -/
theorem http_non_success_soft_failure (s : Scraper) (http : Http) (handler : Handler)
    (url : String) (extras : Extras) (rest : List (String × Extras))
    (dfacc : List Row) (errors : List ScraperError)
    (h : (http url).status_code ≠ ok_status_code) :
    Scraper.load_html_requests http url = none
      ∧ Scraper.execute_requests_loop s { http := http, handler := handler }
          ((url, extras) :: rest) dfacc errors
        = Scraper.execute_requests_loop s { http := http, handler := handler } rest dfacc
            (errors ++ [ScraperError.mk url "Html not loaded"]) := by
  constructor
  · simp [Scraper.load_html_requests, h]
  · exact req_loop_fetchfail s { http := http, handler := handler } url extras rest dfacc
      errors h

/-- C3 witness: a 404 fetch on a concrete one-task run. -/
theorem http_non_success_soft_failure_witness :
    Scraper.load_html_requests fetchFailEnv.http "u" = none
      ∧ Scraper.execute_requests_loop oneUrlScraper fetchFailEnv [("u", [])] [] []
        = Scraper.execute_requests_loop oneUrlScraper fetchFailEnv [] []
            [ScraperError.mk "u" "Html not loaded"] := by
  have h := http_non_success_soft_failure oneUrlScraper fetchFailEnv.http fetchFailEnv.handler
    "u" [] [] [] [] (by decide)
  exact ⟨h.1, h.2⟩

/-- C6: parsing a tabular input with a url column yields one (url, extras)
pair per input row in row order, the extras record holding every non-url
column value of that row; with only a url column, and likewise for tasks from
the plain urls list, every extras record is empty. -/
theorem parse_tasks_row_order (s : Scraper) (df : DataFrame) (us : List String) :
    ("url" ∈ df.columns →
      Scraper.parse_urls_and_extras s (some df)
        = Except.ok (df.rows.map (fun r =>
            (lookupD (df.columns.zip r) "url",
             (df.columns.zip r).filter (fun p => p.1 != "url")))))
    ∧ (df.columns = ["url"] →
      Scraper.parse_urls_and_extras s (some df)
        = Except.ok (df.rows.map (fun r =>
            (lookupD (df.columns.zip r) "url", ([] : Extras)))))
    ∧ (s.urls = some us →
      Scraper.parse_urls_and_extras s none
        = Except.ok (us.map (fun u => (u, ([] : Extras))))) := by
  refine ⟨fun hcol => parse_df_eq s df hcol, fun hcols => ?_, fun hus => ?_⟩
  · rw [parse_df_eq s df (by rw [hcols]; simp)]
    congr 1
    apply List.map_congr_left
    intro r _
    rw [hcols]
    cases r with
    | nil => rfl
    | cons a t => simp
  · simp [Scraper.parse_urls_and_extras, hus]

/-- C6 witness: the spec example `{url: [u1, u2], region: [US, EU]}`. -/
theorem parse_tasks_row_order_witness :
    Scraper.parse_urls_and_extras oneUrlScraper (some regionDf)
      = Except.ok [("u1", [("region", "US")]), ("u2", [("region", "EU")])] := by
  have h := (parse_tasks_row_order oneUrlScraper regionDf []).1 (by decide)
  rw [h]
  rfl

/-- C7: for a configured root sitemap whose fetches succeed, crawl returns
the concatenation, over the children accepted by should_crawl, of each
child's leaf urls, preserving root order and in-child order; the default
should_crawl accepts every url. -/
theorem crawl_concatenates_accepted_children (c : TreeCrawler) (env : CrawlEnv)
    (parent : String)
    (hparent : c.sitemap_parent = some parent)
    (hne : parent ≠ "")
    (hroot : (env.http parent).status_code = ok_status_code)
    (hchildren : ∀ sm ∈ (env.parseLocs (env.http parent).content).filter c.should_crawl,
        (env.http sm).status_code = ok_status_code) :
    TreeCrawler.crawl c env
      = Except.ok (((env.parseLocs (env.http parent).content).filter c.should_crawl).flatMap
          (fun sm => env.parseUrlLocs (env.http sm).content))
    ∧ ∀ u : String, TreeCrawler.default_should_crawl u = true :=
  ⟨crawl_ok c env parent hparent hne hroot hchildren, fun _ => rfl⟩

/-- C7 witness: root [A, B], A yields [x, y], B yields [z], filter rejects B;
the crawl produces exactly [x, y]. -/
theorem crawl_concatenates_accepted_children_witness :
    TreeCrawler.crawl rejectBCrawler sitemapEnv = Except.ok ["x", "y"] := by
  have h := (crawl_concatenates_accepted_children rejectBCrawler sitemapEnv "root"
    rfl (by decide) (by decide) (by decide)).1
  rw [h]
  rfl

/-- C10: under the HTTP strategy with a tabular task source and constructor
urls None, a handler exception makes the threshold check evaluate
`len(self.urls)` on `None`: the run fails with a TypeError — no
ThresholdException is raised and no error list is returned. -/
theorem none_urls_denominator_typeerror (s : Scraper) (env : ReqEnv) (df : DataFrame)
    (url : String) (extras : Extras) (rest : List (String × Extras))
    (dfacc : List Row) (errors : List ScraperError) (msg : String)
    (hurls : s.urls = none)
    (hok : (env.http url).status_code = ok_status_code)
    (hh : env.handler url (some (env.http url).content) none extras
        = HandlerResult.raises msg) :
    Scraper.execute_requests_loop s env ((url, extras) :: rest) dfacc errors
      = Except.error ScrapeExc.typeError
    ∧ (s.parse_urls_and_extras (some df) = Except.ok ((url, extras) :: rest) →
      Scraper.execute_requests s env (some df) = Except.error ScrapeExc.typeError) := by
  refine ⟨req_loop_typeerror s env url extras rest dfacc errors msg hok hh hurls,
    fun hparse => ?_⟩
  have : Scraper.execute_requests s env (some df)
      = Scraper.execute_requests_loop s env ((url, extras) :: rest) [] [] := by
    simp [Scraper.execute_requests, hparse]
  rw [this]
  exact req_loop_typeerror s env url extras rest [] [] msg hok hh hurls

/-- C10 witness: a one-row dataframe, no constructor urls, handler raising on
the first task: the run evaluates to a TypeError. -/
theorem none_urls_denominator_typeerror_witness :
    Scraper.execute_requests noUrlsScraper raisingReqEnv (some oneUrlDf)
      = Except.error ScrapeExc.typeError := by
  exact (none_urls_denominator_typeerror noUrlsScraper raisingReqEnv oneUrlDf
    "u1" [] [] [] [] "e" rfl rfl rfl).2 rfl


/-- C9: constructing a Scraper with any non-None test_mode (True or False)
sets ERROR_THRESHOLD to 0, so whenever a handler error is recorded and the
threshold check runs, the run aborts at that error with ThresholdException(0)
— in the selenium strategy at any handler-error append, and in the requests
strategy (constructor urls present) at any handler-error append. -/
theorem test_mode_zeroes_threshold (urls : Option (List String)) (tm : Bool)
    (ljs : Bool) (ra : Option Nat) (ctm : Bool) (cet : ℚ) :
    (Scraper.init urls (some tm) ljs ra ctm cet).ERROR_THRESHOLD = 0
    ∧ (∀ (env : SelEnv) (total i : Nat) (st : SelState) (url : String) (extras : Extras)
        (rest : List (String × Extras)) (msg : String),
        env.handler url none (some (env.nav url).2) extras = HandlerResult.raises msg →
        (Scraper.selenium_loop (Scraper.init urls (some tm) ljs ra ctm cet) env total i
            ((url, extras) :: rest) st).2
          = some (ScrapeExc.thresholdException 0))
    ∧ (∀ (env : ReqEnv) (us : List String) (url : String) (extras : Extras)
        (rest : List (String × Extras)) (dfacc : List Row) (errors : List ScraperError)
        (msg : String),
        urls = some us →
        (env.http url).status_code = ok_status_code →
        env.handler url (some (env.http url).content) none extras = HandlerResult.raises msg →
        Scraper.execute_requests_loop (Scraper.init urls (some tm) ljs ra ctm cet) env
            ((url, extras) :: rest) dfacc errors
          = Except.error (ScrapeExc.thresholdException 0)) := by
  have hthr : (Scraper.init urls (some tm) ljs ra ctm cet).ERROR_THRESHOLD = 0 := rfl
  refine ⟨hthr, fun env total i st url extras rest msg hh => ?_,
    fun env us url extras rest dfacc errors msg hus hok hh => ?_⟩
  · have hbreach : ((total : ℚ) * (Scraper.init urls (some tm) ljs ra ctm cet).ERROR_THRESHOLD
        < (st.errors.length : ℚ) + 1) := by
      rw [hthr, mul_zero]
      positivity
    rw [sel_loop_abort (Scraper.init urls (some tm) ljs ra ctm cet) env total i url extras
      rest st msg hh hbreach]
    rw [hthr]
    norm_num
  · have hb2 : ((errors.length : ℚ) + 1
        > ((us.length : ℚ)) * (Scraper.init urls (some tm) ljs ra ctm cet).ERROR_THRESHOLD) := by
      rw [hthr, mul_zero]
      positivity
    have hus2 : (Scraper.init urls (some tm) ljs ra ctm cet).urls = some us := by
      rw [show (Scraper.init urls (some tm) ljs ra ctm cet).urls = urls from rfl, hus]
    rw [req_loop_abort (Scraper.init urls (some tm) ljs ra ctm cet) env url extras rest
      dfacc errors us msg hok hh hus2 hb2]
    rw [hthr]
    norm_num

/-- C9 witness: test_mode=False still zeroes the threshold and the first
handler error aborts a concrete requests run with ThresholdException(0). -/
theorem test_mode_zeroes_threshold_witness :
    falseTestModeScraper.ERROR_THRESHOLD = 0
    ∧ Scraper.execute_requests_loop falseTestModeScraper raisingReqEnv [("u", [])] [] []
      = Except.error (ScrapeExc.thresholdException 0) := by
  have h := test_mode_zeroes_threshold (some ["u"]) false false none false
    defaultErrorThreshold
  exact ⟨h.1, h.2.2 raisingReqEnv ["u"] "u" [] [] [] [] "e" rfl rfl rfl⟩


/-- C5 counterexample: with test_mode=True at construction, a run whose
handler errors once raises a ThresholdException — the claim that no
ThresholdException can be raised in test mode is false. -/
theorem test_mode_true_still_raises :
    testModeScraper.TEST_MODE = true
    ∧ Scraper.execute testModeScraper raisingReqEnv raisingSelEnv none
      = Except.error (ScrapeExc.thresholdException 0) := by
  refine ⟨rfl, ?_⟩
  have hbreach : ((1 : ℚ) * testModeScraper.ERROR_THRESHOLD
      < ((initialSelState.errors.length : ℚ)) + 1) := by
    norm_num [testModeScraper, Scraper.init, initialSelState]
  have habort := sel_loop_abort testModeScraper raisingSelEnv 1 0 "u" [] [] initialSelState
    "boom" rfl (by simpa using hbreach)
  have hexec : Scraper.execute testModeScraper raisingReqEnv raisingSelEnv none
      = (match Scraper.selenium_loop testModeScraper raisingSelEnv 1 0 [("u", ([] : Extras))]
            initialSelState with
         | (st, none) => Except.ok (st.df, st.errors)
         | (_, some e) => Except.error e) := rfl
  rw [hexec, habort]
  norm_num [testModeScraper, Scraper.init]

/-- C5 (amended): test_mode=True disables headless mode, but does not disable
the threshold circuit breaker: it sets ERROR_THRESHOLD to 0, so the first
recorded handler error aborts the run with ThresholdException(0) instead of
never raising. -/
theorem test_mode_disables_headless_not_threshold (urls : Option (List String))
    (ljs : Bool) (ra : Option Nat) (ctm : Bool) (cet : ℚ) :
    (Scraper.init urls (some true) ljs ra ctm cet).TEST_MODE = true
    ∧ (Scraper.init urls (some true) ljs ra ctm cet).headless = false
    ∧ (Scraper.init urls (some true) ljs ra ctm cet).ERROR_THRESHOLD = 0
    ∧ (∀ (env : SelEnv) (total i : Nat) (st : SelState) (url : String) (extras : Extras)
        (rest : List (String × Extras)) (msg : String),
        env.handler url none (some (env.nav url).2) extras = HandlerResult.raises msg →
        (Scraper.selenium_loop (Scraper.init urls (some true) ljs ra ctm cet) env total i
            ((url, extras) :: rest) st).2
          = some (ScrapeExc.thresholdException 0)) := by
  refine ⟨rfl, rfl, rfl, fun env total i st url extras rest msg hh => ?_⟩
  have hthr : (Scraper.init urls (some true) ljs ra ctm cet).ERROR_THRESHOLD = 0 := rfl
  have hbreach : ((total : ℚ) * (Scraper.init urls (some true) ljs ra ctm cet).ERROR_THRESHOLD
      < (st.errors.length : ℚ) + 1) := by
    rw [hthr, mul_zero]
    positivity
  rw [sel_loop_abort (Scraper.init urls (some true) ljs ra ctm cet) env total i url extras
    rest st msg hh hbreach]
  rw [hthr]
  norm_num

/-- C5 witness: the theorem instantiated at a concrete one-task selenium run
whose handler raises. -/
theorem test_mode_disables_headless_not_threshold_witness :
    testModeScraper.TEST_MODE = true
    ∧ testModeScraper.headless = false
    ∧ (Scraper.selenium_loop testModeScraper raisingSelEnv 1 0 [("u", [])]
        initialSelState).2 = some (ScrapeExc.thresholdException 0) := by
  have h := test_mode_disables_headless_not_threshold (some ["u"]) true none false
    defaultErrorThreshold
  exact ⟨h.1, h.2.1, h.2.2.2 raisingSelEnv 1 0 initialSelState "u" [] [] "boom" rfl⟩


/-- C4 counterexample: a selenium task whose navigation raises records no
ScraperError at all when the handler succeeds — the run yields the handler's
row and an empty error list, refuting "one ScraperError is recorded". -/
theorem nav_error_records_no_scraper_error :
    (navFailEnv.nav "u").1 = true
    ∧ Scraper.execute_selenium seleniumScraper navFailEnv none
      = ({ df := [[("url", "u")]], errors := [], driver := none,
           events := [DriverEvent.create, DriverEvent.quit] }, none) :=
  ⟨rfl, rfl⟩

/-- C4 (amended): a browser navigation error is caught and non-fatal, but no
ScraperError is recorded for it: the task behaves exactly as if navigation
had succeeded with the same loaded content — the extraction handler is still
invoked on the currently loaded content, and processing continues to the next
task with the error list unchanged (when the handler returns rows). -/
theorem nav_error_nonfatal_no_error_recorded (s : Scraper) (env : SelEnv)
    (total i : Nat) (st : SelState) (url : String) (extras : Extras)
    (rest : List (String × Extras)) (rs : List Row) (d : String)
    (_hnav : (env.nav url).1 = true) :
    (∀ env2 : SelEnv, env2.handler = env.handler → (env2.nav url).2 = (env.nav url).2 →
      Scraper.selenium_step s env2 total i url extras st
        = Scraper.selenium_step s env total i url extras st)
    ∧ (st.driver = some d →
       env.handler url none (some (env.nav url).2) extras = HandlerResult.rows rs →
       Scraper.selenium_loop s env total i ((url, extras) :: rest) st
         = Scraper.selenium_loop s env total (i + 1) rest
             (Scraper.selenium_reset s i
               { st with driver := some (env.nav url).2, df := st.df ++ rs })
       ∧ (Scraper.selenium_reset s i
            { st with driver := some (env.nav url).2, df := st.df ++ rs }).errors
           = st.errors) := by
  constructor
  · intro env2 h1 h2
    simp only [Scraper.selenium_step, load_html_selenium_eq, h1, h2]
  · intro hd hh
    have hstep := sel_step_rows s env total i url extras st rs hh
    rw [load_html_selenium_eq, ensure_driver_some st d hd] at hstep
    constructor
    · rw [sel_loop_cons, hstep]
    · exact (sel_reset_fields s i _).2

/-- C4 witness: the theorem instantiated at a concrete failing navigation
whose handler extracts one row from the partial content. -/
theorem nav_error_nonfatal_witness :
    Scraper.selenium_loop seleniumScraper navFailEnv 1 0 [("u", [])] midRunState
      = Scraper.selenium_loop seleniumScraper navFailEnv 1 1 []
          (Scraper.selenium_reset seleniumScraper 0
            { midRunState with driver := some "partial", df := [[("url", "u")]] })
    ∧ (Scraper.selenium_reset seleniumScraper 0
        { midRunState with driver := some "partial", df := [[("url", "u")]] }).errors
      = [] := by
  have h := (nav_error_nonfatal_no_error_recorded seleniumScraper navFailEnv 1 0 midRunState
    "u" [] [] [[("url", "u")]] "d" rfl).2 rfl rfl
  exact ⟨h.1, h.2⟩


/-- C8 counterexample: with TEST_MODE=true, a threshold-triggered abort does
not destroy the browser session — the event trace at the abort holds the
creation but no quit, refuting "the destroy is unconditional, for every
configuration". -/
theorem test_mode_abort_skips_driver_quit :
    (Scraper.execute_selenium testModeScraper raisingSelEnv none).2
      = some (ScrapeExc.thresholdException 0)
    ∧ (Scraper.execute_selenium testModeScraper raisingSelEnv none).1.events
      = [DriverEvent.create] := by
  have hbreach : ((1 : ℚ) * testModeScraper.ERROR_THRESHOLD
      < ((initialSelState.errors.length : ℚ)) + 1) := by
    norm_num [testModeScraper, Scraper.init, initialSelState]
  have habort := sel_loop_abort testModeScraper raisingSelEnv 1 0 "u" [] [] initialSelState
    "boom" rfl (by simpa using hbreach)
  have hsel : Scraper.execute_selenium testModeScraper raisingSelEnv none
      = Scraper.selenium_loop testModeScraper raisingSelEnv 1 0 [("u", ([] : Extras))]
          initialSelState := rfl
  rw [hsel, habort]
  constructor
  · norm_num [testModeScraper, Scraper.init]
  · rfl

/-- C8 (amended): the browser session is destroyed unconditionally on normal
run completion and at every periodic reset point, for every configuration;
on a threshold-triggered abort it is destroyed only when TEST_MODE is false
(the quit before raising is skipped in test mode). -/
theorem driver_destroyed_on_exits (s : Scraper) (env : SelEnv) (total i : Nat)
    (tasks : List (String × Extras)) (st res : SelState) (e : ScrapeExc)
    (url : String) (extras : Extras) (rs : List Row) (n : Nat) (d : String) :
    (Scraper.selenium_loop s env total i tasks st = (res, none) →
      res.driver = none ∧ ∃ evs, res.events = evs ++ [DriverEvent.quit])
    ∧ (s.TEST_MODE = false →
       Scraper.selenium_loop s env total i tasks st = (res, some e) →
       ∃ evs, res.events = evs ++ [DriverEvent.quit])
    ∧ (st.driver = some d →
       env.handler url none (some (env.nav url).2) extras = HandlerResult.rows rs →
       s.RESET_AFTER = some n →
       (i + 1) % n = 0 →
       Scraper.selenium_step s env total i url extras st
         = ({ df := st.df ++ rs, errors := st.errors, driver := none,
              events := st.events ++ [DriverEvent.quit] }, none)) :=
  ⟨fun h => sel_loop_end_quit s env total tasks i st res h,
   fun htm h => (sel_loop_abort_quit s env total htm tasks i st res e h).2,
   fun hd hh hra hi => sel_step_reset_fires s env total i url extras st rs n d hd hh hra hi⟩

/-- C8 witness: a concrete completed run ends with its session destroyed. -/
theorem driver_destroyed_on_exits_witness :
    completedRunState.driver = none
    ∧ ∃ evs, completedRunState.events = evs ++ [DriverEvent.quit] :=
  (driver_destroyed_on_exits seleniumScraper navFailEnv 1 0 [("u", [])] initialSelState
    completedRunState ScrapeExc.typeError "u" [] [] 1 "d").1 rfl


/-- C1 counterexample: a requests run in which the appended error takes
len(errors) above fraction*totalTasks (1 > 0.05 * 1) yet the run completes
normally, because the fetch-failure path appends without a threshold check. -/
theorem fetch_error_breach_completes :
    Scraper.execute_requests oneUrlScraper fetchFailEnv none
      = Except.ok ([], [ScraperError.mk "u" "Html not loaded"])
    ∧ ((1 : ℚ) * oneUrlScraper.ERROR_THRESHOLD < 1) := by
  refine ⟨rfl, ?_⟩
  norm_num [oneUrlScraper, Scraper.init, defaultErrorThreshold]

/-- C1 (amended): the selenium strategy aborts exactly when a handler error
pushes len(errors) over fraction*totalTasks (totalTasks = parsed task count),
with no further task processed, and completes normally with the full error
list whenever the final handler-error count stays within
floor(fraction*totalTasks); the requests strategy checks the threshold only
on handler-raised errors and against the constructor urls list — fetch
failures are appended with no check — and a urls-sourced run whose final
error count stays within floor(fraction*totalTasks) completes normally with
the full error list. -/
theorem threshold_budget_semantics :
    (∀ (s : Scraper) (env : SelEnv) (total i : Nat) (st : SelState) (url : String)
        (extras : Extras) (rest : List (String × Extras)) (msg : String),
      env.handler url none (some (env.nav url).2) extras = HandlerResult.raises msg →
      ((total : ℚ) * s.ERROR_THRESHOLD < (st.errors.length : ℚ) + 1) →
      Scraper.selenium_loop s env total i ((url, extras) :: rest) st
        = (let st2 := { Scraper.load_html_selenium env url st with
              errors := st.errors ++ [ScraperError.mk url msg] }
           ((if s.TEST_MODE then st2
             else { st2 with events := st2.events ++ [DriverEvent.quit] }),
            some (ScrapeExc.thresholdException (s.ERROR_THRESHOLD * 100)))))
    ∧ (∀ (s : Scraper) (env : SelEnv) (initial_df : Option DataFrame)
        (tasks : List (String × Extras)),
      s.parse_urls_and_extras initial_df = Except.ok tasks →
      (((selenium_errors env tasks).length : ℤ)
          ≤ Int.floor ((tasks.length : ℚ) * s.ERROR_THRESHOLD)) →
      (Scraper.execute_selenium s env initial_df).2 = none
        ∧ (Scraper.execute_selenium s env initial_df).1.errors = selenium_errors env tasks
        ∧ (Scraper.execute_selenium s env initial_df).1.df = selenium_rows env tasks)
    ∧ (∀ (s : Scraper) (env : ReqEnv) (us : List String) (url : String) (extras : Extras)
        (rest : List (String × Extras)) (dfacc : List Row) (errors : List ScraperError)
        (msg : String),
      s.urls = some us →
      (env.http url).status_code = ok_status_code →
      env.handler url (some (env.http url).content) none extras = HandlerResult.raises msg →
      ((us.length : ℚ) * s.ERROR_THRESHOLD < (errors.length : ℚ) + 1) →
      Scraper.execute_requests_loop s env ((url, extras) :: rest) dfacc errors
        = Except.error (ScrapeExc.thresholdException (s.ERROR_THRESHOLD * 100)))
    ∧ (∀ (s : Scraper) (env : ReqEnv) (us : List String),
      s.urls = some us →
      (((requests_errors env (us.map (fun u => (u, ([] : Extras))))).length : ℤ)
          ≤ Int.floor ((us.length : ℚ) * s.ERROR_THRESHOLD)) →
      Scraper.execute_requests s env none
        = Except.ok (requests_rows env (us.map (fun u => (u, ([] : Extras)))),
                     requests_errors env (us.map (fun u => (u, ([] : Extras)))))) := by
  refine ⟨fun s env total i st url extras rest msg hh hb =>
      sel_loop_abort s env total i url extras rest st msg hh hb,
    fun s env initial_df tasks hparse hb => ?_,
    fun s env us url extras rest dfacc errors msg hus hok hh hb =>
      req_loop_abort s env url extras rest dfacc errors us msg hok hh hus hb,
    fun s env us hus hb => ?_⟩
  · have hb2 : ((selenium_errors env tasks).length : ℚ)
        ≤ (tasks.length : ℚ) * s.ERROR_THRESHOLD := by
      have := Int.le_floor.mp hb
      push_cast at this
      exact_mod_cast this
    have hexec : Scraper.execute_selenium s env initial_df
        = Scraper.selenium_loop s env tasks.length 0 tasks initialSelState := by
      simp [Scraper.execute_selenium, hparse]
    have h := sel_loop_complete s env tasks.length tasks 0 initialSelState
      (by simpa [initialSelState] using hb2)
    rw [hexec]
    exact ⟨h.1, by rw [h.2.1]; simp [initialSelState], by rw [h.2.2]; simp [initialSelState]⟩
  · have hb2 : ((requests_errors env (us.map (fun u => (u, ([] : Extras))))).length : ℚ)
        ≤ (us.length : ℚ) * s.ERROR_THRESHOLD := by
      have := Int.le_floor.mp hb
      push_cast at this
      exact_mod_cast this
    have hexec : Scraper.execute_requests s env none
        = Scraper.execute_requests_loop s env (us.map (fun u => (u, ([] : Extras)))) [] [] := by
      simp [Scraper.execute_requests, Scraper.parse_urls_and_extras, hus]
    rw [hexec]
    have h := req_loop_complete s env us hus (us.map (fun u => (u, ([] : Extras)))) [] []
      (by simpa using hb2)
    rw [h]
    simp

/-- C1 witness: a concrete error-free one-url requests run completes
normally under the threshold bound. -/
theorem threshold_budget_semantics_witness :
    Scraper.execute_requests oneUrlScraper okRowsEnv none
      = Except.ok ([[("url", "u")]], []) := by
  have h := threshold_budget_semantics.2.2.2 oneUrlScraper okRowsEnv ["u"] rfl
    (by norm_num [requests_errors, okRowsEnv, Scraper.load_html_requests, ok_status_code,
      oneUrlScraper, Scraper.init, defaultErrorThreshold])
  rw [h]
  rfl


/-- C2 counterexample: a requests run with a five-task dataframe and a
one-url constructor list aborts on its first handler error (1 > 1*0.5 with
the constructor-urls denominator) although the claim's condition over the
parsed task list (1 > 5*0.5) is false — the denominator is len(self.urls),
not the parsed task count. -/
theorem denominator_uses_constructor_urls :
    Scraper.execute_requests oneUrlHalfScraper raisingReqEnv (some fiveUrlDf)
      = Except.error (ScrapeExc.thresholdException 50)
    ∧ ¬ ((5 : ℚ) * oneUrlHalfScraper.ERROR_THRESHOLD < (0 : ℚ) + 1) := by
  constructor
  · have hparse : oneUrlHalfScraper.parse_urls_and_extras (some fiveUrlDf)
        = Except.ok [("u1", []), ("u2", []), ("u3", []), ("u4", []), ("u5", [])] := rfl
    have hloop := req_loop_abort oneUrlHalfScraper raisingReqEnv "u1" []
      [("u2", []), ("u3", []), ("u4", []), ("u5", [])] [] [] ["a"] "e" rfl rfl rfl
      (by norm_num [oneUrlHalfScraper, Scraper.init])
    have hexec : Scraper.execute_requests oneUrlHalfScraper raisingReqEnv (some fiveUrlDf)
        = Scraper.execute_requests_loop oneUrlHalfScraper raisingReqEnv
            [("u1", []), ("u2", []), ("u3", []), ("u4", []), ("u5", [])] [] [] := by
      simp [Scraper.execute_requests, hparse]
    rw [hexec, hloop]
    norm_num [oneUrlHalfScraper, Scraper.init]
  · norm_num [oneUrlHalfScraper, Scraper.init]

/-- C2 (amended): the threshold is re-evaluated immediately after an error is
recorded only for handler-raised errors; the selenium strategy uses the
parsed task count as denominator (execute passes the parsed list's length to
the loop) and a breach raises ThresholdException carrying
ERROR_THRESHOLD*100; the requests strategy uses the constructor urls list as
denominator; a fetch-failure error is appended with no threshold check at
all. -/
theorem threshold_check_sites_and_denominators :
    (∀ (s : Scraper) (env : SelEnv) (initial_df : Option DataFrame)
        (tasks : List (String × Extras)),
      s.parse_urls_and_extras initial_df = Except.ok tasks →
      Scraper.execute_selenium s env initial_df
        = Scraper.selenium_loop s env tasks.length 0 tasks initialSelState)
    ∧ (∀ (s : Scraper) (env : SelEnv) (total i : Nat) (st : SelState) (url : String)
        (extras : Extras) (msg : String),
      env.handler url none (some (env.nav url).2) extras = HandlerResult.raises msg →
      ((Scraper.selenium_step s env total i url extras st).2
          = some (ScrapeExc.thresholdException (s.ERROR_THRESHOLD * 100))
        ↔ (total : ℚ) * s.ERROR_THRESHOLD < (st.errors.length : ℚ) + 1))
    ∧ (∀ (s : Scraper) (env : ReqEnv) (us : List String) (url : String) (extras : Extras)
        (rest : List (String × Extras)) (dfacc : List Row) (errors : List ScraperError)
        (msg : String),
      s.urls = some us →
      (env.http url).status_code = ok_status_code →
      env.handler url (some (env.http url).content) none extras = HandlerResult.raises msg →
      Scraper.execute_requests_loop s env ((url, extras) :: rest) dfacc errors
        = (if (us.length : ℚ) * s.ERROR_THRESHOLD < (errors.length : ℚ) + 1 then
            Except.error (ScrapeExc.thresholdException (s.ERROR_THRESHOLD * 100))
          else Scraper.execute_requests_loop s env rest dfacc
            (errors ++ [ScraperError.mk url msg])))
    ∧ (∀ (s : Scraper) (env : ReqEnv) (url : String) (extras : Extras)
        (rest : List (String × Extras)) (dfacc : List Row) (errors : List ScraperError),
      (env.http url).status_code ≠ ok_status_code →
      Scraper.execute_requests_loop s env ((url, extras) :: rest) dfacc errors
        = Scraper.execute_requests_loop s env rest dfacc
            (errors ++ [ScraperError.mk url "Html not loaded"])) := by
  refine ⟨fun s env initial_df tasks hparse => by simp [Scraper.execute_selenium, hparse],
    fun s env total i st url extras msg hh => ?_,
    fun s env us url extras rest dfacc errors msg hus hok hh => ?_,
    fun s env url extras rest dfacc errors h =>
      req_loop_fetchfail s env url extras rest dfacc errors h⟩
  · by_cases hc : ((total : ℚ) * s.ERROR_THRESHOLD < (st.errors.length : ℚ) + 1)
    · rw [sel_step_abort s env total i url extras st msg hh hc]
      simp [hc]
    · rw [sel_step_noabort s env total i url extras st msg hh hc]
      simp [hc]
  · by_cases hc : ((us.length : ℚ) * s.ERROR_THRESHOLD < (errors.length : ℚ) + 1)
    · rw [req_loop_abort s env url extras rest dfacc errors us msg hok hh hus hc, if_pos hc]
    · rw [req_loop_noabort s env url extras rest dfacc errors us msg hok hh hus hc, if_neg hc]

/-- C2 witness: the requests-strategy equation instantiated at a concrete
task whose handler raises; the check against the constructor list (length 1,
threshold one half) trips on the first error. -/
theorem threshold_check_sites_witness :
    Scraper.execute_requests_loop oneUrlHalfScraper raisingReqEnv
        [("u1", []), ("u2", [])] [] []
      = Except.error (ScrapeExc.thresholdException 50) := by
  have h := threshold_check_sites_and_denominators.2.2.1 oneUrlHalfScraper raisingReqEnv
    ["a"] "u1" [] [("u2", [])] [] [] "e" rfl rfl rfl
  rw [h]
  norm_num [oneUrlHalfScraper, Scraper.init]

end AsScraper
